import Mathlib

/-!
Shallow embedding of the view-state controller in `src/src/App.js` of the
dashboard repository.

The component holds ten `useState` fields; every remote operation is an async
handler that, on completion, applies its success or failure branch atomically
to the state.  We model each operation as a pure function from the pre-state
and the network outcome (the parsed response body, or a thrown error) to the
post-state.  Page size is the constant `postsPerPage = 5` from the source.
-/

set_option autoImplicit false

/-- Outcome of an awaited axios call: the parsed response body, or a thrown
error (the catch blocks in the source ignore the error object itself). -/
inductive NetResult (α : Type) where
  | ok (data : α)
  | err
  deriving Repr, DecidableEq

/-- A user record as used by the controller logic (`id` for scoping fetches,
`name` for display; other profile fields are unused). -/
structure User where
  id : Int
  name : String
  deriving Repr, DecidableEq

/-- A post record: `{id, userId, title, body}`. -/
structure Post where
  id : Int
  userId : Int
  title : String
  body : String
  deriving Repr, DecidableEq

/-- A comment record: `{id, postId, body, email}` (the fields the UI reads). -/
structure Comment where
  id : Int
  postId : Int
  body : String
  email : String
  deriving Repr, DecidableEq

/-- The in-progress post form, `postBody` in the source: `{title, body}`. -/
structure Draft where
  title : String
  body : String
  deriving Repr, DecidableEq

/-- The complete component state: one field per `useState` hook in `App`. -/
structure AppState where
  users : List User
  selectedUser : Option User
  postBody : Draft
  createdPost : Option Post
  posts : List Post
  comments : List Comment
  selectedPostId : Option Int
  loading : Bool
  error : String
  currentPage : Nat
  deriving Repr, DecidableEq

/-- `postsPerPage = 5` — the fixed page size. -/
def postsPerPage : Nat := 5

/-- The initial values of the ten `useState` hooks. -/
def initialState : AppState :=
  { users := []
    selectedUser := none
    postBody := { title := "", body := "" }
    createdPost := none
    posts := []
    comments := []
    selectedPostId := none
    loading := false
    error := ""
    currentPage := 1 }

/-- Completion of the mount-time `fetchUsers` call: on success the user list
is replaced; on failure the shared error string is set; the loading flag is
cleared in the `finally` block either way. -/
def fetchUsers (s : AppState) (r : NetResult (List User)) : AppState :=
  match r with
  | NetResult.ok data => { s with users := data, loading := false }
  | NetResult.err => { s with error := "Failed to fetch users.", loading := false }

/-- The `onChange` handler of the user `<select>`:
`setSelectedUser(users.find((user) => user.id === +e.target.value))`.
The placeholder option has value `""`, which coerces to `0`; when no fetched
user has the chosen id, `find` yields `undefined` (here `none`). -/
def selectUserByValue (s : AppState) (v : Int) : AppState :=
  { s with selectedUser := s.users.find? (fun u => u.id == v) }

/-- Whether the posts-fetch effect body runs: the effect guards on a truthy
`selectedUser` (`if (selectedUser) { ... fetchPosts(); }`). -/
def postsFetchRequested (s : AppState) : Bool :=
  s.selectedUser.isSome

/-- The `userId` query parameter of the posts fetch URL
(`getAllPostsByUser(selectedUser.id)`), when a request is issued at all. -/
def postsFetchUrlUserId (s : AppState) : Option Int :=
  Option.map User.id s.selectedUser

/-- Completion of the posts-fetch effect keyed on `selectedUser`.  If no user
is selected the effect body never runs and the state is untouched; otherwise
on success the posts list is replaced wholesale by the response, and on
failure the shared error string is set; loading is cleared in `finally`. -/
def fetchPostsEffect (s : AppState) (r : NetResult (List Post)) : AppState :=
  match s.selectedUser with
  | none => s
  | some _ =>
    match r with
    | NetResult.ok data => { s with posts := data, loading := false }
    | NetResult.err => { s with error := "Failed to fetch posts.", loading := false }

/-- The validation guard at the top of `createPost`:
`if (!selectedUser || !postBody.title || !postBody.body)` — true exactly when
no user is selected or either draft field is the empty string. -/
def createPostValidationFails (s : AppState) : Bool :=
  s.selectedUser.isNone || s.postBody.title == "" || s.postBody.body == ""

/-- Whether `createPost` reaches the `axios.post` call: exactly when the
validation guard passes. -/
def createPostSendsRequest (s : AppState) : Bool :=
  !createPostValidationFails s

/-- The `createPost` handler.  A validation failure shows an alert and
returns before any request or state write.  On a successful request the
response body with its `id` overridden by `posts.length + 1` is prepended to
the posts list, `createdPost` is recorded, and the draft is cleared.  On a
network failure the shared error string is set.  Loading is cleared in
`finally` on both request paths. -/
def createPost (s : AppState) (r : NetResult Post) : AppState :=
  if createPostValidationFails s then s
  else
    match r with
    | NetResult.ok data =>
      let newPost : Post := { data with id := (s.posts.length : Int) + 1 }
      { s with posts := newPost :: s.posts
               createdPost := some newPost
               postBody := { title := "", body := "" }
               loading := false }
    | NetResult.err => { s with error := "Failed to create post.", loading := false }

/-- The `fetchComments(postId)` handler: on success the comments list is
replaced by the response and `selectedPostId` is set to the argument; on
failure the shared error string is set; loading is cleared in `finally`. -/
def fetchComments (s : AppState) (postId : Int) (r : NetResult (List Comment)) : AppState :=
  match r with
  | NetResult.ok data =>
    { s with comments := data, selectedPostId := some postId, loading := false }
  | NetResult.err => { s with error := "Failed to fetch comments.", loading := false }

/-- `indexOfLastPost = currentPage * postsPerPage`. -/
def indexOfLastPost (s : AppState) : Nat :=
  s.currentPage * postsPerPage

/-- `indexOfFirstPost = indexOfLastPost - postsPerPage`. -/
def indexOfFirstPost (s : AppState) : Nat :=
  indexOfLastPost s - postsPerPage

/-- `currentPosts = posts.slice(indexOfFirstPost, indexOfLastPost)` — the
visible page, modelled as drop-then-take. -/
def currentPosts (s : AppState) : List Post :=
  (s.posts.drop (indexOfFirstPost s)).take (indexOfLastPost s - indexOfFirstPost s)

/-- `Math.ceil(posts.length / postsPerPage)` — the total page count. -/
def totalPages (s : AppState) : Nat :=
  (s.posts.length + postsPerPage - 1) / postsPerPage

/-- The `nextPage` handler: increment the page if
`currentPage < Math.ceil(posts.length / postsPerPage)`, else do nothing. -/
def nextPage (s : AppState) : AppState :=
  if s.currentPage < totalPages s then { s with currentPage := s.currentPage + 1 } else s

/-- The `prevPage` handler: decrement the page if `currentPage > 1`, else do
nothing. -/
def prevPage (s : AppState) : AppState :=
  if 1 < s.currentPage then { s with currentPage := s.currentPage - 1 } else s

/-- One atomic state transition of the controller: a user event or the
completion of one of the four remote operations. -/
inductive Step : AppState → AppState → Prop where
  | usersDone (s : AppState) (r : NetResult (List User)) : Step s (fetchUsers s r)
  | selectChange (s : AppState) (v : Int) : Step s (selectUserByValue s v)
  | postsDone (s : AppState) (r : NetResult (List Post)) : Step s (fetchPostsEffect s r)
  | create (s : AppState) (r : NetResult Post) : Step s (createPost s r)
  | commentsDone (s : AppState) (pid : Int) (r : NetResult (List Comment)) :
      Step s (fetchComments s pid r)
  | next (s : AppState) : Step s (nextPage s)
  | prev (s : AppState) : Step s (prevPage s)

/-- A controller state reachable from the initial render. -/
def Reachable (s : AppState) : Prop :=
  Relation.ReflTransGen Step initialState s

/-- The pagination index lies in the valid range `[1, max 1 (totalPages))]`. -/
def pageInRange (s : AppState) : Prop :=
  1 ≤ s.currentPage ∧ s.currentPage ≤ max 1 (totalPages s)

instance (s : AppState) : Decidable (pageInRange s) := by
  unfold pageInRange
  infer_instance

/-- Claim C7: a successful `fetchComments` fully replaces the comments list
and sets the viewed post id to its argument; hence after
`fetchComments pid` then `fetchComments oid` (both successful) the state
holds exactly the second response with `oid` as the viewed post id. -/
theorem C7_fetchComments_replace (s : AppState) (pid oid : Int)
    (cs1 cs2 : List Comment) :
    (fetchComments s pid (NetResult.ok cs1)).comments = cs1
    ∧ (fetchComments s pid (NetResult.ok cs1)).selectedPostId = some pid
    ∧ (fetchComments (fetchComments s pid (NetResult.ok cs1)) oid
        (NetResult.ok cs2)).comments = cs2
    ∧ (fetchComments (fetchComments s pid (NetResult.ok cs1)) oid
        (NetResult.ok cs2)).selectedPostId = some oid := by
  refine ⟨rfl, rfl, rfl, rfl⟩

/-! ### Concrete sample data for witnesses and counterexamples -/

/-- Sample user with id 1. -/
def ann : User := { id := 1, name := "Ann" }

/-- Sample user with id 2. -/
def bob : User := { id := 2, name := "Bob" }

/-- A post of user 1 with the given id. -/
def sp (i : Int) : Post := { id := i, userId := 1, title := "t", body := "b" }

/-- Seven posts fetched for user 1, as in the spec scenario. -/
def scenarioPosts : List Post := [sp 1, sp 2, sp 3, sp 4, sp 5, sp 6, sp 7]

/-- Three posts of user 2 — a shorter posts list used when switching users. -/
def threePosts : List Post :=
  [{ id := 101, userId := 2, title := "t", body := "b" },
   { id := 102, userId := 2, title := "t", body := "b" },
   { id := 103, userId := 2, title := "t", body := "b" }]

/-- The state after mount, selecting user 1 and a successful 7-post fetch. -/
def scenarioPage1 : AppState :=
  fetchPostsEffect (selectUserByValue (fetchUsers initialState (NetResult.ok [ann])) 1)
    (NetResult.ok scenarioPosts)

/-- A state with user 1 selected, a filled-in draft, and one existing post. -/
def draftState : AppState :=
  { initialState with
    users := [ann]
    selectedUser := some ann
    postBody := { title := "Hello", body := "World" }
    posts := [sp 1] }

/-- A sample response body of the `POST /posts` call (server-assigned id). -/
def respPost : Post := { id := 101, userId := 1, title := "Hello", body := "World" }

/-! ### Claims C3, C4, C5, C6, C8, C9, C10 -/

/-- Claim C3: with a selected user and non-empty draft fields, a successful
`createPost` prepends the response body with its id overridden by
`posts.length + 1` (the pre-call posts count) to the posts list, records it
as `createdPost`, resets both draft fields to the empty string, and clears
the loading flag. -/
theorem C3_createPost_success (s : AppState) (u : User) (data : Post)
    (hu : s.selectedUser = some u) (ht : s.postBody.title ≠ "")
    (hb : s.postBody.body ≠ "") :
    createPost s (NetResult.ok data) =
      { s with
        posts := { data with id := (s.posts.length : Int) + 1 } :: s.posts
        createdPost := some { data with id := (s.posts.length : Int) + 1 }
        postBody := { title := "", body := "" }
        loading := false } := by
  have hguard : createPostValidationFails s = false := by
    simp [createPostValidationFails, hu, ht, hb]
  simp [createPost, hguard]

/-- Witness for C3 at a concrete state and response. -/
theorem C3_createPost_success_witness :
    createPost draftState (NetResult.ok respPost) =
      { draftState with
        posts := { respPost with id := (draftState.posts.length : Int) + 1 } :: draftState.posts
        createdPost := some { respPost with id := (draftState.posts.length : Int) + 1 }
        postBody := { title := "", body := "" }
        loading := false } :=
  C3_createPost_success draftState ann respPost rfl (by decide) (by decide)

/-- Claim C4: when no user is selected or a draft field is empty, the
validation guard fires, no network request is issued, and `createPost`
returns the state unchanged whatever the (hypothetical) network outcome. -/
theorem C4_createPost_validation (s : AppState)
    (h : s.selectedUser = none ∨ s.postBody.title = "" ∨ s.postBody.body = "") :
    createPostValidationFails s = true
    ∧ createPostSendsRequest s = false
    ∧ ∀ r, createPost s r = s := by
  have hg : createPostValidationFails s = true := by
    rcases h with h | h | h <;> simp [createPostValidationFails, h]
  exact ⟨hg, by simp [createPostSendsRequest, hg], fun r => by simp [createPost, hg]⟩

/-- Witness for C4 at the initial state (no user selected, empty draft). -/
theorem C4_createPost_validation_witness :
    createPostValidationFails initialState = true
    ∧ createPostSendsRequest initialState = false
    ∧ createPost initialState NetResult.err = initialState :=
  ⟨(C4_createPost_validation initialState (Or.inl rfl)).1,
   (C4_createPost_validation initialState (Or.inl rfl)).2.1,
   (C4_createPost_validation initialState (Or.inl rfl)).2.2 NetResult.err⟩

/-- Claim C5: `nextPage` increments the page exactly when
`currentPage * 5 < posts.length` (equivalently `currentPage < totalPages`,
the no-op case being the last page) and `prevPage` decrements exactly when
`currentPage > 1`; otherwise each is a complete no-op on the state. -/
theorem C5_paginate (s : AppState) :
    ((nextPage s).currentPage = s.currentPage + 1 ↔ s.currentPage * 5 < s.posts.length)
    ∧ (s.currentPage * 5 < s.posts.length ↔ s.currentPage < totalPages s)
    ∧ (¬ s.currentPage * 5 < s.posts.length → nextPage s = s)
    ∧ (1 < s.currentPage → prevPage s = { s with currentPage := s.currentPage - 1 })
    ∧ (¬ 1 < s.currentPage → prevPage s = s) := by
  have hequiv : s.currentPage * 5 < s.posts.length ↔ s.currentPage < totalPages s := by
    unfold totalPages postsPerPage
    omega
  have hnext : (nextPage s).currentPage = s.currentPage + 1 ↔ s.currentPage < totalPages s := by
    unfold nextPage
    split
    · exact iff_of_true rfl (by assumption)
    · exact iff_of_false (by omega) (by assumption)
  refine ⟨hnext.trans hequiv.symm, hequiv, ?_, ?_, ?_⟩
  · intro h
    unfold nextPage
    rw [if_neg (fun hc => h (hequiv.mpr hc))]
  · intro h
    unfold prevPage
    rw [if_pos h]
  · intro h
    unfold prevPage
    rw [if_neg h]

/-- Witness for C5: `prevPage` decrements on page 2 of the scenario state,
and `nextPage` is a no-op at the initial state (no posts). -/
theorem C5_paginate_witness :
    prevPage (nextPage scenarioPage1) =
      { nextPage scenarioPage1 with
        currentPage := (nextPage scenarioPage1).currentPage - 1 }
    ∧ nextPage initialState = initialState :=
  ⟨(C5_paginate (nextPage scenarioPage1)).2.2.2.1 (by decide),
   (C5_paginate initialState).2.2.1 (by decide)⟩

/-- Claim C6: for any state with a page index of at least 1, the visible
slice equals `posts[(page-1)*5 : page*5]`; and in the concrete scenario of
seven posts for user 1, page 1 shows posts 1–5, one `nextPage` moves to
page 2 showing posts 6–7, and a second `nextPage` is a no-op. -/
theorem C6_visible_slice :
    (∀ s : AppState, 1 ≤ s.currentPage →
      currentPosts s = (s.posts.drop ((s.currentPage - 1) * postsPerPage)).take postsPerPage)
    ∧ currentPosts scenarioPage1 = [sp 1, sp 2, sp 3, sp 4, sp 5]
    ∧ (nextPage scenarioPage1).currentPage = 2
    ∧ currentPosts (nextPage scenarioPage1) = [sp 6, sp 7]
    ∧ nextPage (nextPage scenarioPage1) = nextPage scenarioPage1 := by
  refine ⟨?_, by decide, by decide, by decide, by decide⟩
  intro s h
  unfold currentPosts indexOfFirstPost indexOfLastPost postsPerPage
  have h1 : s.currentPage * 5 - (s.currentPage * 5 - 5) = 5 := by omega
  have h2 : s.currentPage * 5 - 5 = (s.currentPage - 1) * 5 := by omega
  rw [h1, h2]

/-- Witness for C6: the slice formula evaluated at the scenario state. -/
theorem C6_visible_slice_witness :
    currentPosts scenarioPage1 =
      (scenarioPage1.posts.drop ((scenarioPage1.currentPage - 1) * postsPerPage)).take
        postsPerPage :=
  C6_visible_slice.1 scenarioPage1 (by decide)

/-- Claim C8: when the validation guard passes and the network request
fails, `createPost` sets the generic error string, clears the loading flag,
and leaves every other field — posts, draft, selection, users, comments,
viewed post id, page — exactly as before. -/
theorem C8_createPost_failure_atomic (s : AppState) (u : User)
    (hu : s.selectedUser = some u) (ht : s.postBody.title ≠ "")
    (hb : s.postBody.body ≠ "") :
    createPost s NetResult.err =
      { s with error := "Failed to create post.", loading := false } := by
  have hguard : createPostValidationFails s = false := by
    simp [createPostValidationFails, hu, ht, hb]
  simp [createPost, hguard]

/-- Witness for C8 at a concrete state satisfying the preconditions. -/
theorem C8_createPost_failure_atomic_witness :
    createPost draftState NetResult.err =
      { draftState with error := "Failed to create post.", loading := false } :=
  C8_createPost_failure_atomic draftState ann rfl (by decide) (by decide)

/-- Claim C9: for each of the four remote operations, a successful
completion leaves the shared error string exactly as it was (a stale error
is never cleared), while the shared loading flag is cleared on every
completion, success or failure.  The posts fetch is conditioned on its
effect actually running and `createPost` on its validation guard passing,
since otherwise no request completes. -/
theorem C9_shared_flags (s : AppState) :
    (∀ us, (fetchUsers s (NetResult.ok us)).error = s.error)
    ∧ (∀ r, (fetchUsers s r).loading = false)
    ∧ (postsFetchRequested s = true →
        (∀ ps, (fetchPostsEffect s (NetResult.ok ps)).error = s.error)
        ∧ ∀ r, (fetchPostsEffect s r).loading = false)
    ∧ (createPostSendsRequest s = true →
        (∀ p, (createPost s (NetResult.ok p)).error = s.error)
        ∧ ∀ r, (createPost s r).loading = false)
    ∧ (∀ pid cs, (fetchComments s pid (NetResult.ok cs)).error = s.error)
    ∧ (∀ pid r, (fetchComments s pid r).loading = false) := by
  refine ⟨fun us => rfl, fun r => ?_, fun hreq => ?_, fun hsend => ?_,
    fun pid cs => rfl, fun pid r => ?_⟩
  · cases r <;> rfl
  · obtain ⟨u, hu⟩ := Option.isSome_iff_exists.mp (by simpa [postsFetchRequested] using hreq)
    exact ⟨fun ps => by simp [fetchPostsEffect, hu],
      fun r => by cases r <;> simp [fetchPostsEffect, hu]⟩
  · have hguard : createPostValidationFails s = false := by
      simpa [createPostSendsRequest] using hsend
    exact ⟨fun p => by simp [createPost, hguard],
      fun r => by cases r <;> simp [createPost, hguard]⟩
  · cases r <;> rfl

/-- Witness for C9 at a concrete state where both guarded operations run. -/
theorem C9_shared_flags_witness :
    (fetchPostsEffect draftState NetResult.err).loading = false
    ∧ (createPost draftState (NetResult.ok respPost)).error = draftState.error :=
  ⟨((C9_shared_flags draftState).2.2.1 (by decide)).2 NetResult.err,
   ((C9_shared_flags draftState).2.2.2.1 (by decide)).1 respPost⟩

/-- Claim C10: choosing a selector value that matches no fetched user (such
as the placeholder, whose value coerces to 0) sets `selectedUser` to `none`
and leaves posts, comments and the viewed post id untouched; the posts-fetch
effect does not run for the absent selection, so no dependent state is
cleared or refetched. -/
theorem C10_placeholder_select (s : AppState) (v : Int)
    (h : ∀ u ∈ s.users, u.id ≠ v) :
    (selectUserByValue s v).selectedUser = none
    ∧ (selectUserByValue s v).posts = s.posts
    ∧ (selectUserByValue s v).comments = s.comments
    ∧ (selectUserByValue s v).selectedPostId = s.selectedPostId
    ∧ postsFetchRequested (selectUserByValue s v) = false
    ∧ ∀ r, fetchPostsEffect (selectUserByValue s v) r = selectUserByValue s v := by
  have hfind : s.users.find? (fun u => u.id == v) = none := by
    rw [List.find?_eq_none]
    intro u hu
    simpa using h u hu
  refine ⟨by simp [selectUserByValue, hfind], rfl, rfl, rfl,
    by simp [postsFetchRequested, selectUserByValue, hfind], fun r => ?_⟩
  simp [fetchPostsEffect, selectUserByValue, hfind]

/-- Witness for C10: the placeholder value 0 at a state whose only user has
id 1. -/
theorem C10_placeholder_select_witness :
    (selectUserByValue draftState 0).selectedUser = none
    ∧ fetchPostsEffect (selectUserByValue draftState 0) NetResult.err =
        selectUserByValue draftState 0 :=
  ⟨(C10_placeholder_select draftState 0 (by decide)).1,
   (C10_placeholder_select draftState 0 (by decide)).2.2.2.2.2 NetResult.err⟩

/-! ### Claim C1: the pagination-range invariant -/

/-- Every single transition keeps the page index at least 1. -/
theorem Step.one_le_currentPage {s t : AppState} (hst : Step s t)
    (h : 1 ≤ s.currentPage) : 1 ≤ t.currentPage := by
  cases hst with
  | usersDone r => cases r <;> simpa [fetchUsers] using h
  | selectChange v => simpa [selectUserByValue] using h
  | postsDone r =>
    cases hsel : s.selectedUser <;> cases r <;> simp_all [fetchPostsEffect]
  | create r =>
    by_cases hg : createPostValidationFails s = true
    · simpa [createPost, hg] using h
    · cases r <;> simp_all [createPost]
  | commentsDone pid r => cases r <;> simpa [fetchComments] using h
  | next =>
    unfold nextPage
    split
    · show 1 ≤ s.currentPage + 1
      omega
    · exact h
  | prev =>
    unfold prevPage
    split
    · rename_i hlt
      show 1 ≤ s.currentPage - 1
      omega
    · exact h

/-- In every reachable state the page index is at least 1. -/
theorem reachable_one_le_currentPage (s : AppState) (h : Reachable s) :
    1 ≤ s.currentPage := by
  unfold Reachable at h
  induction h with
  | refl => decide
  | tail _ hbc ih => exact hbc.one_le_currentPage ih

/-- The sequence of events behind the C1 counterexample: users load, user 1
is selected, seven posts arrive, the user pages forward to page 2, user 2 is
selected, and three posts arrive — with no page reset anywhere. -/
def c1s1 : AppState := fetchUsers initialState (NetResult.ok [ann, bob])

/-- After selecting user 1. -/
def c1s2 : AppState := selectUserByValue c1s1 1

/-- After user 1's seven posts arrive. -/
def c1s3 : AppState := fetchPostsEffect c1s2 (NetResult.ok scenarioPosts)

/-- After paging forward to page 2. -/
def c1s4 : AppState := nextPage c1s3

/-- After selecting user 2. -/
def c1s5 : AppState := selectUserByValue c1s4 2

/-- After user 2's three posts arrive: the page index is still 2. -/
def c1s6 : AppState := fetchPostsEffect c1s5 (NetResult.ok threePosts)

/-- Counterexample to claim C1: a reachable state in which the posts list
has just shrunk from 7 to 3 entries and `currentPage` is still 2, strictly
above `ceil(posts.length / 5) = 1` — replacing the posts list never resets
the page index, so it is not always within `[1, ceil(posts.length / 5)]`. -/
theorem C1_pagination_range_cex :
    Reachable c1s6
    ∧ c1s4.posts.length = 7 ∧ c1s4.currentPage = 2
    ∧ c1s6.posts.length = 3 ∧ c1s6.currentPage = 2
    ∧ ¬ c1s6.currentPage ≤ totalPages c1s6 := by
  refine ⟨?_, by decide, by decide, by decide, by decide, by decide⟩
  show Relation.ReflTransGen Step initialState c1s6
  have h1 : Step initialState c1s1 := Step.usersDone initialState (NetResult.ok [ann, bob])
  have h2 : Step c1s1 c1s2 := Step.selectChange c1s1 1
  have h3 : Step c1s2 c1s3 := Step.postsDone c1s2 (NetResult.ok scenarioPosts)
  have h4 : Step c1s3 c1s4 := Step.next c1s3
  have h5 : Step c1s4 c1s5 := Step.selectChange c1s4 2
  have h6 : Step c1s5 c1s6 := Step.postsDone c1s5 (NetResult.ok threePosts)
  exact Relation.ReflTransGen.head h1 (Relation.ReflTransGen.head h2
    (Relation.ReflTransGen.head h3 (Relation.ReflTransGen.head h4
      (Relation.ReflTransGen.head h5 (Relation.ReflTransGen.single h6)))))

/-- Amended claim C1: in every reachable state `currentPage ≥ 1`, and the
handlers that change the page or grow the posts list — `nextPage`,
`prevPage` and `createPost` — preserve
`currentPage ∈ [1, max 1 (ceil(posts.length / 5))]`; but when the posts
list is replaced wholesale (selecting a different user) the page index is
not reset, so the upper bound can be violated (see the counterexample). -/
theorem C1_pagination_range_amended :
    (∀ s, Reachable s → 1 ≤ s.currentPage)
    ∧ (∀ s, pageInRange s →
        pageInRange (nextPage s) ∧ pageInRange (prevPage s)
        ∧ ∀ r, pageInRange (createPost s r)) := by
  refine ⟨reachable_one_le_currentPage, fun s h => ⟨?_, ?_, fun r => ?_⟩⟩
  · obtain ⟨h1, h2⟩ := h
    unfold pageInRange totalPages postsPerPage at *
    unfold nextPage totalPages postsPerPage
    split <;> simp <;> omega
  · obtain ⟨h1, h2⟩ := h
    unfold pageInRange totalPages postsPerPage at *
    unfold prevPage
    split <;> simp <;> omega
  · obtain ⟨h1, h2⟩ := h
    unfold pageInRange totalPages postsPerPage at *
    by_cases hg : createPostValidationFails s = true
    · simp [createPost, hg]
      omega
    · cases r <;> simp [createPost, hg] <;> omega

/-- Witness for the amended C1: the initial state is reachable with page
index 1, and the range is preserved by `nextPage` at the scenario state. -/
theorem C1_pagination_range_amended_witness :
    1 ≤ initialState.currentPage ∧ pageInRange (nextPage scenarioPage1) :=
  ⟨C1_pagination_range_amended.1 initialState Relation.ReflTransGen.refl,
   (C1_pagination_range_amended.2 scenarioPage1 (by decide)).1⟩

/-! ### Claim C2: what selecting a user replaces and what it leaves behind -/

/-- A comment on post 1 of user 1, fetched before the user switch. -/
def oldComment : Comment := { id := 11, postId := 1, body := "old", email := "a@b.c" }

/-- A state in which user 1 is selected, their seven posts are loaded, and
the comments of post 1 are being viewed. -/
def c2pre : AppState :=
  { initialState with
    users := [ann, bob]
    selectedUser := some ann
    posts := scenarioPosts
    comments := [oldComment]
    selectedPostId := some 1 }

/-- Counterexample to claim C2: selecting user 2 and receiving their posts
replaces the posts list, but the viewed post id and the comments list are
not cleared — both still hold the previous selection's values. -/
theorem C2_selectUser_cex :
    c2pre.selectedPostId = some 1
    ∧ c2pre.comments = [oldComment]
    ∧ (fetchPostsEffect (selectUserByValue c2pre 2) (NetResult.ok threePosts)).posts = threePosts
    ∧ (fetchPostsEffect (selectUserByValue c2pre 2)
        (NetResult.ok threePosts)).selectedPostId = some 1
    ∧ (fetchPostsEffect (selectUserByValue c2pre 2)
        (NetResult.ok threePosts)).comments = [oldComment] := by
  refine ⟨rfl, rfl, by decide, by decide, by decide⟩

/-- Amended claim C2: selecting user `u` (found in the fetched user list)
replaces the selected user with `u`, issues a posts fetch whose URL is
scoped by `u.id`, and a successful response replaces the posts list
wholesale; the viewed post id and the comments list are left exactly as
they were — they are not cleared, the old comments merely stop being
rendered once no displayed post carries the old id. -/
theorem C2_selectUser_amended (s : AppState) (u : User) (resp : List Post)
    (hfind : s.users.find? (fun w => w.id == u.id) = some u) :
    (fetchPostsEffect (selectUserByValue s u.id) (NetResult.ok resp)).selectedUser = some u
    ∧ (fetchPostsEffect (selectUserByValue s u.id) (NetResult.ok resp)).posts = resp
    ∧ postsFetchUrlUserId (selectUserByValue s u.id) = some u.id
    ∧ (fetchPostsEffect (selectUserByValue s u.id)
        (NetResult.ok resp)).selectedPostId = s.selectedPostId
    ∧ (fetchPostsEffect (selectUserByValue s u.id) (NetResult.ok resp)).comments = s.comments := by
  have h1 : selectUserByValue s u.id = { s with selectedUser := some u } := by
    simp [selectUserByValue, hfind]
  rw [h1]
  refine ⟨rfl, rfl, rfl, rfl, rfl⟩

/-- Witness for the amended C2: switching to user 2 at the concrete state. -/
theorem C2_selectUser_amended_witness :
    (fetchPostsEffect (selectUserByValue c2pre bob.id)
      (NetResult.ok threePosts)).selectedUser = some bob
    ∧ (fetchPostsEffect (selectUserByValue c2pre bob.id)
        (NetResult.ok threePosts)).posts = threePosts :=
  ⟨(C2_selectUser_amended c2pre bob threePosts (by decide)).1,
   (C2_selectUser_amended c2pre bob threePosts (by decide)).2.1⟩
